import Mathlib

/-!
Verification development for the solaredge-api repository.

The definitions below are a shallow embedding of the typed REST binding layer:
the generic reflective decoder of `solaredge/apiconstruct.py` (class `baseclass`),
the per-dataclass decoding of `solaredge/const.py`, and the request-building and
session logic of `solaredge/api.py` (class `SolaredgeClient`).  JSON scalars are
modelled with `Rat` for numbers; Python `None` is `Json.null`; Python exceptions
are `Except.error` carrying the exception's description.
-/

namespace SolaredgeSpec

/-- Untyped JSON values as delivered to the decoders (Python dict/list/scalar). -/
inductive Json where
  | null : Json
  | bool (b : Bool) : Json
  | num (q : Rat) : Json
  | str (s : String) : Json
  | arr (l : List Json) : Json
  | obj (l : List (String × Json)) : Json

mutual

/-- Structural equality of JSON values, modelling the Python equality used by
the enum value lookup of the decoder. -/
def Json.beq : Json → Json → Bool
  | .null, .null => true
  | .bool a, .bool b => a == b
  | .num a, .num b => decide (a = b)
  | .str a, .str b => a == b
  | .arr a, .arr b => Json.beqList a b
  | .obj a, .obj b => Json.beqObj a b
  | _, _ => false

/-- Elementwise equality of JSON arrays. -/
def Json.beqList : List Json → List Json → Bool
  | [], [] => true
  | a :: as, b :: bs => Json.beq a b && Json.beqList as bs
  | _, _ => false

/-- Elementwise equality of JSON objects. -/
def Json.beqObj : List (String × Json) → List (String × Json) → Bool
  | [], [] => true
  | (k1, v1) :: as, (k2, v2) :: bs => k1 == k2 && Json.beq v1 v2 && Json.beqObj as bs
  | _, _ => false

end

instance : BEq Json := ⟨Json.beq⟩

/-- Structured timestamp produced by the temporal parsing of the decoders. -/
structure DateTime where
  year : Nat
  month : Nat
  day : Nat
  hour : Nat
  minute : Nat
  second : Nat
deriving DecidableEq

/-- Accumulator-based splitting of a character list at a separator character. -/
def splitCharAux (c : Char) : List Char → List Char → List (List Char)
  | [], acc => [acc.reverse]
  | x :: xs, acc =>
    if x == c then acc.reverse :: splitCharAux c xs []
    else splitCharAux c xs (x :: acc)

/-- Splits a character list at every occurrence of the separator character. -/
def splitChar (c : Char) (l : List Char) : List (List Char) := splitCharAux c l []

/-- True when the list is a nonempty run of decimal digits. -/
def digitsOk (l : List Char) : Bool := !l.isEmpty && l.all Char.isDigit

/-- Numeric value of a run of decimal digits. -/
def natFromDigits (l : List Char) : Nat := l.foldl (fun n c => 10 * n + (c.toNat - 48)) 0

/-- Parses a year-month-day component of the form YYYY-MM-DD. -/
def parseYmd (l : List Char) : Option (Nat × Nat × Nat) :=
  match splitChar '-' l with
  | [y, m, d] =>
    if digitsOk y && digitsOk m && digitsOk d then
      let mv := natFromDigits m
      let dv := natFromDigits d
      if 1 ≤ mv && mv ≤ 12 && 1 ≤ dv && dv ≤ 31 then some (natFromDigits y, mv, dv)
      else none
    else none
  | _ => none

/-- Parses an hour-minute-second component of the form HH:MM:SS. -/
def parseHms (l : List Char) : Option (Nat × Nat × Nat) :=
  match splitChar ':' l with
  | [h, m, s] =>
    if digitsOk h && digitsOk m && digitsOk s then
      let hv := natFromDigits h
      let mv := natFromDigits m
      let sv := natFromDigits s
      if hv ≤ 23 && mv ≤ 59 && sv ≤ 59 then some (hv, mv, sv) else none
    else none
  | _ => none

/-- Modelled from the behavior of the external temporal-parsing libraries
(ciso8601 and dateutil.parser) on the date formats the vendor API produces:
a date "YYYY-MM-DD" optionally followed by a space and a time "HH:MM:SS".
A bare date parses to midnight of that day; anything else fails. -/
def parseDateTime (s : String) : Option DateTime :=
  match splitChar ' ' s.data with
  | [d] =>
    match parseYmd d with
    | some (y, m, dd) => some ⟨y, m, dd, 0, 0, 0⟩
    | none => none
  | [d, t] =>
    match parseYmd d, parseHms t with
    | some (y, m, dd), some (h, mi, sec) => some ⟨y, m, dd, h, mi, sec⟩
    | _, _ => none
  | _ => none

/-- Descriptor of a Python Enum class: the ordered list of its variants, each a
pair of the variant name and the variant's associated value. -/
structure EnumDesc where
  variants : List (String × Json)

/-- Outcome of the enum coercion step of baseclass post-init processing. -/
inductive EnumStep where
  | variant (name : String) : EnumStep
  | keepRaw : EnumStep
  | valueError : EnumStep

/-- Lookup of an enum member by associated value, modelling the value-based
constructor call performed inside the KeyError handler of
baseclass post-init enum handling; an unmatched value raises ValueError,
which no handler of that code catches. -/
def enumValueLookup (e : EnumDesc) (j : Json) : EnumStep :=
  match e.variants.find? (fun p => Json.beq p.2 j) with
  | some p => .variant p.1
  | none => .valueError

/-- Enum coercion of baseclass post-init processing:
a name lookup first (possible only for string values; an unhashable value
raises TypeError, which is caught and leaves the raw value in place), then on
KeyError a lookup by associated value, whose ValueError is not caught. -/
def enumLookup (e : EnumDesc) (j : Json) : EnumStep :=
  match j with
  | .arr _ => .keepRaw
  | .obj _ => .keepRaw
  | .str s =>
    match e.variants.find? (fun p => p.1 == s) with
    | some p => .variant p.1
    | none => enumValueLookup e (.str s)
  | _ => enumValueLookup e j

/-- Primitive kind declared by a field annotation of float, str, int or bool. -/
inductive PrimKind where
  | str : PrimKind
  | int : PrimKind
  | float : PrimKind
  | bool : PrimKind

/-- Declared field type of a record decoded by baseclass post-init processing. -/
inductive BTag where
  | prim (k : PrimKind) : BTag
  | temporal : BTag
  | enumT (e : EnumDesc) : BTag

/-- Decoded state of one field after baseclass post-init processing. -/
inductive FieldVal where
  | raw (j : Json) : FieldVal
  | time (d : DateTime) : FieldVal
  | variant (s : String) : FieldVal

/-- Attribute lookup of a field value among the keyword arguments of the record,
missing keys reading as Python None. -/
def getKw (kvs : List (String × Json)) (n : String) : Json :=
  match kvs.find? (fun kv => kv.1 == n) with
  | some kv => kv.2
  | none => Json.null

/-- Attribute lookup with an explicit default for optional dataclass fields. -/
def getKwD (kvs : List (String × Json)) (n : String) (d : Json) : Json :=
  match kvs.find? (fun kv => kv.1 == n) with
  | some kv => kv.2
  | none => d

/-- Processing of one field by baseclass post-init: None is skipped, the four
primitive annotations are passed through with no inspection of the scalar,
datetime annotations are parsed (TypeError on a non-string, ValueError on an
unparseable string), and Enum annotations go through `enumLookup`. -/
def fieldStep (t : BTag) (j : Json) : Except String FieldVal :=
  match j with
  | .null => .ok (.raw .null)
  | _ =>
    match t with
    | .prim _ => .ok (.raw j)
    | .temporal =>
      match j with
      | .str s =>
        match parseDateTime s with
        | some d => .ok (.time d)
        | none => .error "ValueError: unknown datetime string format"
      | _ => .error "TypeError: parse_datetime argument must be a string"
    | .enumT e =>
      match enumLookup e j with
      | .variant n => .ok (.variant n)
      | .keepRaw => .ok (.raw j)
      | .valueError => .error "ValueError: not a valid enum member"

/-- Field loop of baseclass post-init processing: fields are visited in
declaration order and an exception raised for one field aborts the whole
record construction. -/
def basePostInit (schema : List (String × BTag)) (vals : List (String × Json)) :
    Except String (List (String × FieldVal)) :=
  match schema with
  | [] => .ok []
  | (n, t) :: rest =>
    match fieldStep t (getKw vals n) with
    | .error m => .error m
    | .ok fv =>
      match basePostInit rest vals with
      | .error m => .error m
      | .ok rest' => .ok ((n, fv) :: rest')

/-- Keyword filtering of baseclass parse_kwargs: only keys that are declared
fields of the target record are forwarded to its constructor. -/
def parseKwargsKnown (declared : List String) : List (String × Json) → List (String × Json)
  | [] => []
  | kv :: rest =>
    if declared.contains kv.1 then kv :: parseKwargsKnown declared rest
    else parseKwargsKnown declared rest

/-- Error reporting of baseclass parse_kwargs: every key that is not a declared
field is logged as an unexpected keyword argument, in input order. -/
def parseKwargsLogged (declared : List String) : List (String × Json) → List String
  | [] => []
  | kv :: rest =>
    if declared.contains kv.1 then parseKwargsLogged declared rest
    else kv.1 :: parseKwargsLogged declared rest

/-- Modelled after Python dataclass keyword construction: a TypeError is raised
when a keyword is not a declared field or a required field is absent. -/
def checkKwargs (declared required : List String) (kvs : List (String × Json)) :
    Except String Unit :=
  if kvs.any (fun kv => !(declared.contains kv.1)) then
    .error "TypeError: got an unexpected keyword argument"
  else if required.any (fun f => !(kvs.any (fun kv => kv.1 == f))) then
    .error "TypeError: missing required positional argument"
  else .ok ()

/-- Typed publicSettings record of the Sites response. -/
structure PublicSettingsT where
  isPublic : Json
  name : Json

/-- Typed location record of the Sites response. -/
structure LocationT where
  country : Json
  city : Json
  address : Json
  address2 : Json
  zip : Json
  timeZone : Json
  countryCode : Json

/-- Typed primaryModule record of the Sites response. -/
structure PrimaryModuleT where
  manufacturerName : Json
  modelName : Json
  maximumPower : Json
  temperatureCoef : Json

/-- Typed uris record of the Sites response. -/
structure UrisT where
  SITE_IMAGE : Json
  DATA_PERIOD : Json
  DETAILS : Json
  OVERVIEW : Json

/-- Typed Site record with the two temporal fields parsed and the four nested
records constructed, as performed by the post-init method of Site. -/
structure SiteT where
  id : Json
  name : Json
  accountId : Json
  status : Json
  peakPower : Json
  lastUpdateTime : DateTime
  currency : Json
  installationDate : DateTime
  ptoDate : Json
  notes : Json
  type : Json
  location : LocationT
  primaryModule : PrimaryModuleT
  uris : UrisT
  publicSettings : PublicSettingsT
  alertQuantity : Json
  alertSeverity : Json

/-- Direct construction of PublicSettings performed by the post-init method of
Site: the raw value must be a mapping and may carry no unknown keys. -/
def decodePublicSettings (j : Json) : Except String PublicSettingsT :=
  match j with
  | .obj kvs => do
    checkKwargs ["isPublic", "name"] ["isPublic"] kvs
    .ok { isPublic := getKw kvs "isPublic", name := getKwD kvs "name" .null }
  | _ => .error "TypeError: argument after ** must be a mapping"

/-- Direct construction of Location performed by the post-init method of Site. -/
def decodeLocation (j : Json) : Except String LocationT :=
  match j with
  | .obj kvs => do
    checkKwargs ["country", "city", "address", "address2", "zip", "timeZone", "countryCode"]
      ["country", "city", "address", "address2", "zip", "timeZone", "countryCode"] kvs
    .ok { country := getKw kvs "country", city := getKw kvs "city",
          address := getKw kvs "address", address2 := getKw kvs "address2",
          zip := getKw kvs "zip", timeZone := getKw kvs "timeZone",
          countryCode := getKw kvs "countryCode" }
  | _ => .error "TypeError: argument after ** must be a mapping"

/-- Direct construction of PrimaryModule performed by the post-init method of Site. -/
def decodePrimaryModule (j : Json) : Except String PrimaryModuleT :=
  match j with
  | .obj kvs => do
    checkKwargs ["manufacturerName", "modelName", "maximumPower", "temperatureCoef"]
      ["manufacturerName", "modelName", "maximumPower", "temperatureCoef"] kvs
    .ok { manufacturerName := getKw kvs "manufacturerName",
          modelName := getKw kvs "modelName",
          maximumPower := getKw kvs "maximumPower",
          temperatureCoef := getKw kvs "temperatureCoef" }
  | _ => .error "TypeError: argument after ** must be a mapping"

/-- Direct construction of Uris performed by the post-init method of Site. -/
def decodeUris (j : Json) : Except String UrisT :=
  match j with
  | .obj kvs => do
    checkKwargs ["SITE_IMAGE", "DATA_PERIOD", "DETAILS", "OVERVIEW"]
      ["SITE_IMAGE", "DATA_PERIOD", "DETAILS", "OVERVIEW"] kvs
    .ok { SITE_IMAGE := getKw kvs "SITE_IMAGE", DATA_PERIOD := getKw kvs "DATA_PERIOD",
          DETAILS := getKw kvs "DETAILS", OVERVIEW := getKw kvs "OVERVIEW" }
  | _ => .error "TypeError: argument after ** must be a mapping"

/-- Temporal coercion used by the const.py post-init methods: the raw value is
handed to dateutil parsing, raising TypeError on a non-string and ValueError on
an unparseable string. -/
def decodeDatetimeField (j : Json) : Except String DateTime :=
  match j with
  | .str s =>
    match parseDateTime s with
    | some d => .ok d
    | none => .error "ValueError: unknown datetime string format"
  | _ => .error "TypeError: parse argument must be a string"

/-- List of the declared fields of Site. -/
def siteFields : List String :=
  ["id", "name", "accountId", "status", "peakPower", "lastUpdateTime", "currency",
   "installationDate", "ptoDate", "notes", "type", "location", "primaryModule",
   "uris", "publicSettings", "alertQuantity", "alertSeverity"]

/-- List of the required fields of Site (every field without a default). -/
def siteRequired : List String :=
  ["id", "name", "accountId", "status", "peakPower", "lastUpdateTime", "currency",
   "installationDate", "ptoDate", "notes", "type", "location", "primaryModule",
   "uris", "publicSettings"]

/-- Construction of one Site from a raw JSON object, modelling the dataclass
keyword construction followed by the post-init method of Site: the four nested
records are rebuilt with direct dataclass constructions and the two temporal
fields are parsed; any raised exception aborts the whole Site. -/
def decodeSite (kvs : List (String × Json)) : Except String SiteT := do
  checkKwargs siteFields siteRequired kvs
  let ps ← decodePublicSettings (getKw kvs "publicSettings")
  let loc ← decodeLocation (getKw kvs "location")
  let pm ← decodePrimaryModule (getKw kvs "primaryModule")
  let ur ← decodeUris (getKw kvs "uris")
  let inst ← decodeDatetimeField (getKw kvs "installationDate")
  let lastUp ← decodeDatetimeField (getKw kvs "lastUpdateTime")
  .ok { id := getKw kvs "id", name := getKw kvs "name",
        accountId := getKw kvs "accountId", status := getKw kvs "status",
        peakPower := getKw kvs "peakPower", lastUpdateTime := lastUp,
        currency := getKw kvs "currency", installationDate := inst,
        ptoDate := getKw kvs "ptoDate", notes := getKw kvs "notes",
        type := getKw kvs "type", location := loc, primaryModule := pm,
        uris := ur, publicSettings := ps,
        alertQuantity := getKwD kvs "alertQuantity" (Json.num 0),
        alertSeverity := getKwD kvs "alertSeverity" Json.null }

/-- State of one entry of the site list of SiteList: either still a raw JSON
value or an already constructed Site, mirroring the in-place list mutation of
the post-init method of SiteList. -/
def SiteEntry : Type := Sum Json SiteT

/-- Processing of one list entry by the post-init method of SiteList: only
entries that are still raw mappings are converted into Site records; anything
else is left untouched by the isinstance guard. -/
def decodeSiteEntry (e : SiteEntry) : Except String SiteEntry :=
  match e with
  | .inl (Json.obj kvs) =>
    match decodeSite kvs with
    | .ok s => .ok (.inr s)
    | .error m => .error m
  | .inl j => .ok (.inl j)
  | .inr s => .ok (.inr s)

/-- Entry loop of the post-init method of SiteList over the site list, an
exception for one entry aborting the whole construction. -/
def decodeSiteEntries : List SiteEntry → Except String (List SiteEntry)
  | [] => .ok []
  | e :: rest =>
    match decodeSiteEntry e with
    | .error m => .error m
    | .ok e' =>
      match decodeSiteEntries rest with
      | .error m => .error m
      | .ok rest' => .ok (e' :: rest')

/-- Variants of the TimeUnit enum of const.py. -/
inductive TimeUnit where
  | QUARTER_OF_AN_HOUR : TimeUnit
  | HOUR : TimeUnit
  | DAY : TimeUnit
  | WEEK : TimeUnit
  | MONTH : TimeUnit
  | YEAR : TimeUnit
deriving DecidableEq

/-- Descriptor of the TimeUnit enum: every variant's associated value equals
its name. -/
def timeUnitDesc : EnumDesc :=
  ⟨[("QUARTER_OF_AN_HOUR", .str "QUARTER_OF_AN_HOUR"), ("HOUR", .str "HOUR"),
    ("DAY", .str "DAY"), ("WEEK", .str "WEEK"), ("MONTH", .str "MONTH"),
    ("YEAR", .str "YEAR")]⟩

/-- Possible contents of a field annotated with an enum type: either the raw
JSON value the decoder left in place, or a genuine typed variant. -/
inductive EnumOrRaw (α : Type) where
  | raw (j : Json) : EnumOrRaw α
  | variant (v : α) : EnumOrRaw α

/-- Typed Value record of the energy endpoints: a parsed timestamp and the
sample value, which the post-init method of Value replaces by zero when the
incoming value is null. -/
structure ValueT where
  date : DateTime
  value : Json

/-- Construction of one Value from a raw JSON object: keyword construction with
a default of zero for the value field, then the post-init method parses the
date and maps a null value to zero. -/
def decodeValue (kvs : List (String × Json)) : Except String ValueT := do
  checkKwargs ["date", "value"] ["date"] kvs
  let d ← decodeDatetimeField (getKw kvs "date")
  let v := getKwD kvs "value" (Json.num 0)
  .ok { date := d, value := match v with | .null => Json.num 0 | _ => v }

/-- State of one entry of the values list of EnergyData: raw or constructed. -/
inductive ValEntry where
  | raw (j : Json) : ValEntry
  | dec (v : ValueT) : ValEntry

/-- Entry loop of the post-init method of EnergyData over the values list:
entries that are mappings are converted into Value records, everything else is
left raw by the isinstance guard. -/
def decodeValueEntries : List Json → Except String (List ValEntry)
  | [] => .ok []
  | j :: rest =>
    match j with
    | .obj kvs =>
      match decodeValue kvs with
      | .error m => .error m
      | .ok v =>
        match decodeValueEntries rest with
        | .error m => .error m
        | .ok rest' => .ok (.dec v :: rest')
    | _ =>
      match decodeValueEntries rest with
      | .error m => .error m
      | .ok rest' => .ok (.raw j :: rest')

/-- Typed EnergyData record: the post-init method of EnergyData only rebuilds
the entries of the values list; the timeUnit, unit and measuredBy fields keep
whatever raw scalar the JSON carried. -/
structure EnergyDataT where
  timeUnit : EnumOrRaw TimeUnit
  unit : Json
  measuredBy : Json
  values : List ValEntry

/-- Construction of EnergyData from a raw JSON object, per its dataclass
declaration and post-init method. -/
def decodeEnergyData (j : Json) : Except String EnergyDataT :=
  match j with
  | .obj kvs => do
    checkKwargs ["timeUnit", "unit", "measuredBy", "values"]
      ["timeUnit", "unit", "measuredBy", "values"] kvs
    match getKw kvs "values" with
    | .arr l => do
      let vals ← decodeValueEntries l
      .ok { timeUnit := .raw (getKw kvs "timeUnit"), unit := getKw kvs "unit",
            measuredBy := getKw kvs "measuredBy", values := vals }
    | _ => .error "TypeError: object is not iterable"
  | _ => .error "TypeError: argument after ** must be a mapping"

/-- Decoding pipeline of the get_energy accessor: the response body is fed to
the EnergyDataResponse constructor, whose post-init method rebuilds the energy
field, and the accessor returns that field, unwrapping the envelope. -/
def getEnergyDecode (body : Json) : Except String EnergyDataT :=
  match body with
  | .obj kvs => do
    checkKwargs ["energy"] ["energy"] kvs
    decodeEnergyData (getKw kvs "energy")
  | _ => .error "TypeError: argument after ** must be a mapping"

/-- Session-wide path-argument store of the client (class APIArguments):
a site id and an inverter serial number, both initially unset. -/
structure ArgsV where
  siteid : Option Json
  serialnumber : Option Json

/-- Attribute lookup on the argument store by argument name. -/
def argValue (a : ArgsV) (n : String) : Option Json :=
  if n == "siteid" then a.siteid
  else if n == "serialnumber" then a.serialnumber
  else none

/-- Python string conversion applied when a stored value is substituted into a
URL template: None renders as the four characters of the word None. -/
def pyFormat : Option Json → String
  | none => "None"
  | some .null => "None"
  | some (.str s) => s
  | some (.num q) => if q.den == 1 then toString q.num else toString q
  | some (.bool b) => if b then "True" else "False"
  | some (.arr _) => "<list>"
  | some (.obj _) => "<dict>"

/-- Token of a URL template: literal text or a named placeholder. -/
inductive TPart where
  | lit (s : String) : TPart
  | arg (n : String) : TPart

/-- Placeholder substitution of the endpoint format call: each placeholder is
looked up in the argument dictionary built by the call, a missing key raising
KeyError; the stored value is substituted through Python string conversion
whether or not it is set. -/
def formatTemplate : List TPart → List (String × Option Json) → Except String String
  | [], _ => .ok ""
  | .lit s :: rest, al =>
    match formatTemplate rest al with
    | .ok r => .ok (s ++ r)
    | .error m => .error m
  | .arg n :: rest, al =>
    match al.find? (fun p => p.1 == n) with
    | none => .error "KeyError"
    | some p =>
      match formatTemplate rest al with
      | .ok r => .ok (pyFormat p.2 ++ r)
      | .error m => .error m

/-- Query-string accumulation loop of the call routine: declared parameters are
visited in endpoint order and a parameter is appended exactly when its stored
value is set, the first appended parameter introduced by a question mark and
every later one by an ampersand. -/
def parmStringAux (pstore : String → Option String) : List String → String → String
  | [], acc => acc
  | p :: rest, acc =>
    match pstore p with
    | none => parmStringAux pstore rest acc
    | some v =>
      if acc = "" then parmStringAux pstore rest ("?" ++ (p ++ ("=" ++ v)))
      else parmStringAux pstore rest (acc ++ ("&" ++ (p ++ ("=" ++ v))))

/-- Query string built by the call routine for an endpoint's parameter list. -/
def parmString (pstore : String → Option String) (parms : List String) : String :=
  parmStringAux pstore parms ""

/-- Endpoint descriptor: URL template tokens, required path-argument names and
declared query-parameter names, as carried by the Endpoint dataclass. -/
structure EndpointD where
  template : List TPart
  argNames : List String
  parms : List String

/-- Descriptor of the SiteEnergy endpoint of const.py. -/
def SiteEnergyD : EndpointD :=
  { template := [.lit "site/", .arg "siteid", .lit "/energy"],
    argNames := ["siteid"],
    parms := ["api_key", "startDate", "endDate", "timeUnit"] }

/-- Descriptor of the InverterTelemetry endpoint of const.py. -/
def InverterDataD : EndpointD :=
  { template := [.lit "equipment/", .arg "siteid", .lit "/", .arg "serialnumber", .lit "/data"],
    argNames := ["siteid", "serialnumber"],
    parms := ["api_key", "startTime", "endTime"] }

/-- Base URL of the Solaredge REST API. -/
def baseUrl : String := "https://monitoringapi.solaredge.com"

/-- Outcome of the request-building phase of the call routine: either an HTTP
GET issued at a concrete URL, or a raised exception. -/
inductive CallOutcome where
  | request (url : String) : CallOutcome
  | error (msg : String) : CallOutcome

/-- True exactly when the outcome is an issued network request. -/
def CallOutcome.isRequest : CallOutcome → Bool
  | .request _ => true
  | .error _ => false

/-- Request building of the call routine: the argument dictionary pairs every
declared argument name with whatever the store holds, the template is
formatted, the query string is appended, and the GET is issued; no presence
check of required arguments is performed anywhere. -/
def callApi (a : ArgsV) (pstore : String → Option String) (e : EndpointD) : CallOutcome :=
  let argumentlist := e.argNames.map (fun n => (n, argValue a n))
  match formatTemplate e.template argumentlist with
  | .error m => .error m
  | .ok path => .request (baseUrl ++ ("/" ++ (path ++ ("/" ++ parmString pstore e.parms))))

/-- Typed Meter record of the Inventory response. -/
structure MeterT where
  name : Json
  manufacturer : Json
  model : Json
  SN : Json

/-- Typed Sensor record of the Inventory response. -/
structure SensorT where
  connectedSolaredgeDeviceSN : Json
  connectedTo : Json
  id : Json
  category : Json
  type : Json

/-- Typed Gateway record of the Inventory response. -/
structure GatewayT where
  name : Json
  serialNumber : Json
  firmwareVersion : Json

/-- Typed Battery record of the Inventory response. -/
structure BatteryT where
  name : Json
  manufacturer : Json
  model : Json
  firmwareVersion : Json
  connectedInverterSn : Json
  nameplateCapacity : Json
  SN : Json

/-- Typed Inverter record of the Inventory response. -/
structure InverterT where
  SN : Json
  name : Json
  manufacturer : Json
  model : Json
  communicationMethod : Json
  cpuVersion : Json
  connectedOptimizers : Json

/-- Typed InventoryData record: the site field is not part of the vendor
response and defaults to unset. -/
structure InventoryDataT where
  meters : List MeterT
  sensors : List SensorT
  gateways : List GatewayT
  batteries : List BatteryT
  inverters : List InverterT
  site : Option Json

/-- Typed ComponentEntry record: the site field is not part of the vendor
response and defaults to unset. -/
structure ComponentEntryT where
  name : Json
  manufacturer : Json
  model : Json
  serialNumber : Json
  kWpDC : Json
  site : Option Json

/-- Accessor get_site_inventory: the requested id is stored as the current
site id and, after the transport and decode produce the inventory record, the
id is written into the record's site field before it is returned. -/
def getSiteInventory (args : ArgsV) (id : Json) (resp : InventoryDataT) :
    ArgsV × InventoryDataT :=
  let args' := { args with siteid := some id }
  (args', { resp with site := some id })

/-- Accessor get_site_components: an explicitly passed site overrides the
stored site id, and the current site id is written into the site field of
every returned component entry. -/
def getSiteComponents (args : ArgsV) (site : Option String) (resp : List ComponentEntryT) :
    ArgsV × List ComponentEntryT :=
  let args' :=
    match site with
    | some s => { args with siteid := some (Json.str s) }
    | none => args
  (args', resp.map (fun e => { e with site := args'.siteid }))

/-- Accessor get_inverter_telemetry: an explicitly passed serial is stored
first; a request is issued only when the store then holds a serial number, and
otherwise the accessor returns None with no network activity.  The second
component is the issued call when there is one. -/
def getInverterTelemetry (args : ArgsV) (pstore : String → Option String)
    (serial : Option String) : ArgsV × Option CallOutcome :=
  let args' :=
    match serial with
    | some s => { args with serialnumber := some (Json.str s) }
    | none => args
  match args'.serialnumber with
  | some _ => (args', some (callApi args' pstore InverterDataD))
  | none => (args', none)

/-- One iteration of the site loop of client construction: the site id is
stored, then get_site_inventory is invoked for that site (the oracle standing
for transport and decode) and its result appended to the inventory cache. -/
def initStep (inventoryOf : Json → InventoryDataT) (st : ArgsV × List InventoryDataT)
    (s : SiteT) : ArgsV × List InventoryDataT :=
  let a1 := { st.1 with siteid := some s.id }
  let r := getSiteInventory a1 s.id (inventoryOf s.id)
  (r.1, st.2 ++ [r.2])

/-- Discovery phase of client construction: a first loop stores each site id in
turn and collects the inventories, then a second loop stores each discovered
inverter serial number in turn. -/
def initArguments (args0 : ArgsV) (sites : List SiteT)
    (inventoryOf : Json → InventoryDataT) : ArgsV × List InventoryDataT :=
  let r := sites.foldl (initStep inventoryOf) (args0, [])
  let serial := r.2.foldl
    (fun ser inv => inv.inverters.foldl (fun _ i => some i.SN) ser) r.1.serialnumber
  ({ r.1 with serialnumber := serial }, r.2)

/-- Last site id of a discovered site list, when there is one. -/
def lastId : List SiteT → Option Json
  | [] => none
  | [s] => some s.id
  | _ :: rest => lastId rest

/-- Last serial number of an inverter list, when there is one. -/
def lastSN : List InverterT → Option Json
  | [] => none
  | [i] => some i.SN
  | _ :: rest => lastSN rest

/-- All inverters discovered during construction, in discovery order. -/
def allInverters (sites : List SiteT) (inventoryOf : Json → InventoryDataT) :
    List InverterT :=
  (sites.map (fun s => (inventoryOf s.id).inverters)).flatten

/-- Declared parameters that currently hold a stored value, in declaration
order, modelled from the spec's words for the query-string contract. -/
def setParms (pstore : String → Option String) (parms : List String) :
    List (String × String) :=
  parms.filterMap (fun p => (pstore p).map (fun v => (p, v)))

/-- Rendering of every query-string parameter after the first one. -/
def renderTail : List (String × String) → String
  | [] => ""
  | kv :: rest => "&" ++ (kv.1 ++ ("=" ++ kv.2)) ++ renderTail rest

/-- Rendering of a query string from an ordered parameter list, modelled from
the spec's words: exactly the set parameters, in declared order, the first
introduced by a question mark and the rest by ampersands. -/
def renderQuery : List (String × String) → String
  | [] => ""
  | kv :: rest => "?" ++ (kv.1 ++ ("=" ++ kv.2)) ++ renderTail rest

theorem append_ne_empty_left (x y : String) (h : x ≠ "") : x ++ y ≠ "" := by
  intro he
  apply h
  have hd := congrArg String.data he
  rw [String.data_append] at hd
  exact String.ext (List.append_eq_nil.mp hd).1

theorem parmStringAux_append (pstore : String → Option String) (parms : List String) :
    ∀ acc : String, acc ≠ "" →
    parmStringAux pstore parms acc = acc ++ renderTail (setParms pstore parms) := by
  induction parms with
  | nil => intro acc _; simp [parmStringAux, setParms, renderTail]
  | cons p rest ih =>
    intro acc h
    cases hp : pstore p with
    | none =>
      simp only [parmStringAux, hp]
      rw [ih acc h]
      simp [setParms, List.filterMap_cons, hp]
    | some v =>
      simp only [parmStringAux, hp]
      rw [if_neg h, ih _ (append_ne_empty_left acc _ h)]
      simp [setParms, List.filterMap_cons, hp, renderTail, String.append_assoc]

/-- C4: for every endpoint call, the built query string contains exactly those
declared optional parameters whose stored values are currently set, every
unset parameter being omitted entirely, and the parameters appear in the order
they are declared in the endpoint descriptor's parameter list. -/
theorem query_string_is_set_parms_in_order (pstore : String → Option String)
    (parms : List String) :
    parmString pstore parms = renderQuery (setParms pstore parms) := by
  induction parms with
  | nil => rfl
  | cons p rest ih =>
    unfold parmString at ih ⊢
    cases hp : pstore p with
    | none =>
      simp only [parmStringAux, hp]
      rw [ih]
      simp [setParms, List.filterMap_cons, hp]
    | some v =>
      simp only [parmStringAux, hp]
      rw [if_pos trivial,
        parmStringAux_append pstore rest _ (append_ne_empty_left "?" _ (by decide))]
      simp [setParms, List.filterMap_cons, hp, renderQuery, String.append_assoc]

/-- True exactly when a decode outcome is a successful construction. -/
def decodeOk {α : Type} : Except String α → Bool
  | .ok _ => true
  | .error _ => false

/-- C1 counterexample: decoding a record whose enum-typed field holds a string
matching neither a variant name nor a variant value raises a ValueError that
aborts the whole record; no sentinel is produced and the sibling field is
never decoded. -/
theorem enum_unknown_value_raises_counterexample :
    basePostInit [("timeUnit", .enumT timeUnitDesc), ("unit", .prim .str)]
      [("timeUnit", Json.str "FORTNIGHT"), ("unit", Json.str "Wh")] =
      Except.error "ValueError: not a valid enum member" ∧
    decodeOk (basePostInit [("timeUnit", .enumT timeUnitDesc), ("unit", .prim .str)]
      [("timeUnit", Json.str "FORTNIGHT"), ("unit", Json.str "Wh")]) = false :=
  ⟨rfl, rfl⟩

/-- C1 (amended): decoding an enum-typed field attempts lookup by variant name
first and on failure attempts lookup by the variant's associated value, but
when both lookups fail a ValueError is raised, aborting the decode of the
record; no sentinel value exists and decoding does not continue. -/
theorem enum_decode_double_failure_raises (e : EnumDesc) (s : String)
    (hname : e.variants.find? (fun p => p.1 == s) = none)
    (hval : e.variants.find? (fun p => Json.beq p.2 (Json.str s)) = none) :
    enumLookup e (Json.str s) = .valueError := by
  simp [enumLookup, hname, enumValueLookup, hval]

theorem enum_decode_double_failure_raises_witness :
    timeUnitDesc.variants.find? (fun p => p.1 == "FORTNIGHT") = none ∧
    timeUnitDesc.variants.find? (fun p => Json.beq p.2 (Json.str "FORTNIGHT")) = none ∧
    enumLookup timeUnitDesc (Json.str "FORTNIGHT") = .valueError :=
  ⟨rfl, rfl, enum_decode_double_failure_raises timeUnitDesc "FORTNIGHT" rfl rfl⟩

/-- C3 counterexample: a field declared as an integer primitive decoded from a
JSON string scalar is passed through unchanged and the record decodes
successfully; no decode error is signalled for the kind mismatch. -/
theorem primitive_kind_mismatch_not_error :
    basePostInit [("count", .prim .int)] [("count", Json.str "abc")] =
      Except.ok [("count", FieldVal.raw (Json.str "abc"))] := rfl

/-- C3 (amended): for every primitive-typed field the decoder passes the JSON
scalar through unchanged whatever the scalar's kind; no kind check is
performed and no error can be signalled by the primitive branch. -/
theorem primitive_field_passthrough (k : PrimKind) (j : Json) :
    fieldStep (.prim k) j = .ok (.raw j) := by
  cases j <;> rfl

/-- Parameter store used by the concrete missing-argument call. -/
def c2Pstore : String → Option String :=
  fun s => if s == "api_key" then some "KEY" else none

/-- C2 counterexample: building the SiteEnergy request with no site id stored
raises no MissingArgument error; the placeholder is substituted with the
string None and the network request is issued at that URL. -/
theorem missing_siteid_issues_request_counterexample :
    callApi ⟨none, none⟩ c2Pstore SiteEnergyD =
      .request "https://monitoringapi.solaredge.com/site/None/energy/?api_key=KEY" ∧
    (callApi ⟨none, none⟩ c2Pstore SiteEnergyD).isRequest = true :=
  ⟨rfl, rfl⟩

/-- C2 (amended): when a required path argument has no stored value, the call
routine performs no check and fails with no error: the unset value is rendered
as the string None inside the URL and the network request is issued anyway. -/
theorem missing_argument_still_requests (sn : Option Json)
    (pstore : String → Option String) :
    callApi ⟨none, sn⟩ pstore SiteEnergyD =
      .request (baseUrl ++ ("/" ++ ("site/None/energy" ++
        ("/" ++ parmString pstore SiteEnergyD.parms)))) := rfl

/-- Concrete energy response body of the decoding scenario. -/
def energyScenarioBody : Json :=
  Json.obj [("energy", Json.obj
    [("timeUnit", Json.str "DAY"), ("unit", Json.str "Wh"),
     ("measuredBy", Json.str "INVERTER"),
     ("values", Json.arr
       [Json.obj [("date", Json.str "2024-01-01 00:00:00"),
                  ("value", Json.num (mkRat 12345 10))],
        Json.obj [("date", Json.str "2024-01-02 00:00:00"),
                  ("value", Json.null)]])])]

/-- Record produced by decoding the concrete energy response body. -/
def energyScenarioDecoded : EnergyDataT :=
  { timeUnit := .raw (Json.str "DAY"), unit := Json.str "Wh",
    measuredBy := Json.str "INVERTER",
    values := [ValEntry.dec ⟨⟨2024, 1, 1, 0, 0, 0⟩, Json.num (mkRat 12345 10)⟩,
               ValEntry.dec ⟨⟨2024, 1, 2, 0, 0, 0⟩, Json.num 0⟩] }

/-- C5 counterexample: the decoded record's timeUnit field is the raw string
DAY, not the typed variant DAY: the post-init method of EnergyData never
converts its enum-annotated field. -/
theorem energy_timeunit_not_typed_variant_counterexample :
    getEnergyDecode energyScenarioBody = Except.ok energyScenarioDecoded ∧
    energyScenarioDecoded.timeUnit ≠ EnumOrRaw.variant TimeUnit.DAY :=
  ⟨rfl, fun h => nomatch h⟩

/-- C5 (amended): decoding the concrete energy body and unwrapping the
envelope yields a record whose timeUnit remains the raw string DAY, whose
values sequence has exactly two entries, whose second entry's numeric value is
coerced to zero by the null-to-zero rule, and whose two dates are parsed to
structured timestamps at midnight of the first and second of January 2024. -/
theorem energy_scenario_decode :
    getEnergyDecode energyScenarioBody = Except.ok energyScenarioDecoded ∧
    energyScenarioDecoded.values.length = 2 ∧
    energyScenarioDecoded.timeUnit = EnumOrRaw.raw (Json.str "DAY") ∧
    energyScenarioDecoded.values =
      [ValEntry.dec ⟨⟨2024, 1, 1, 0, 0, 0⟩, Json.num (mkRat 12345 10)⟩,
       ValEntry.dec ⟨⟨2024, 1, 2, 0, 0, 0⟩, Json.num 0⟩] :=
  ⟨rfl, rfl, rfl, rfl⟩

/-- Concrete Site object carrying an unknown key inside its nested
publicSettings mapping. -/
def c7SiteKvs : List (String × Json) :=
  [("id", Json.num 1), ("name", Json.str "home"), ("accountId", Json.num 2),
   ("status", Json.str "Active"), ("peakPower", Json.num 5),
   ("lastUpdateTime", Json.str "2024-05-01 10:00:00"), ("currency", Json.str "EUR"),
   ("installationDate", Json.str "2022-03-04 00:00:00"), ("ptoDate", Json.null),
   ("notes", Json.str "n"), ("type", Json.str "Optimizers"),
   ("location", Json.obj [("country", Json.str "UK"), ("city", Json.str "London"),
     ("address", Json.str "a"), ("address2", Json.str "b"), ("zip", Json.str "z"),
     ("timeZone", Json.str "Europe/London"), ("countryCode", Json.str "GB")]),
   ("primaryModule", Json.obj [("manufacturerName", Json.str "m"),
     ("modelName", Json.str "mm"), ("maximumPower", Json.num 400),
     ("temperatureCoef", Json.num 0)]),
   ("uris", Json.obj [("SITE_IMAGE", Json.str "u1"), ("DATA_PERIOD", Json.str "u2"),
     ("DETAILS", Json.str "u3"), ("OVERVIEW", Json.str "u4")]),
   ("publicSettings", Json.obj [("isPublic", Json.bool false),
     ("futureFlag", Json.bool true)])]

/-- C7 counterexample: decoding a Site whose nested publicSettings object
carries one unknown key fails with a TypeError, because the post-init method
of Site constructs the nested record directly instead of going through the
tolerant parse_kwargs filter. -/
theorem unknown_key_fails_nested_decode_counterexample :
    decodeSite c7SiteKvs = Except.error "TypeError: got an unexpected keyword argument" ∧
    decodeOk (decodeSite c7SiteKvs) = false :=
  ⟨rfl, rfl⟩

/-- C7 (amended): decoding performed through parse_kwargs never fails on
unknown keys: exactly the schema-declared keys are forwarded to the record
constructor, in input order, and exactly the unknown keys are logged; but the
direct nested-record constructions used by the const.py post-init methods
(such as Site building its PublicSettings) raise a TypeError on unknown keys. -/
theorem parse_kwargs_filters_unknown_keys (declared : List String)
    (kwargs : List (String × Json)) :
    parseKwargsKnown declared kwargs =
      kwargs.filter (fun kv => declared.contains kv.1) ∧
    parseKwargsLogged declared kwargs =
      (kwargs.filter (fun kv => !(declared.contains kv.1))).map Prod.fst := by
  induction kwargs with
  | nil => exact ⟨rfl, rfl⟩
  | cons kv rest ih =>
    obtain ⟨ih1, ih2⟩ := ih
    cases hc : declared.contains kv.1 with
    | false =>
      have hm : ¬ (kv.1 ∈ declared) := by simpa using hc
      simp [parseKwargsKnown, parseKwargsLogged, hc, hm, List.filter_cons, ih1, ih2]
    | true =>
      have hm : kv.1 ∈ declared := by simpa using hc
      simp [parseKwargsKnown, parseKwargsLogged, hc, hm, List.filter_cons, ih1, ih2]

theorem decodeSiteEntry_fixed (e e' : SiteEntry) (h : decodeSiteEntry e = .ok e') :
    decodeSiteEntry e' = .ok e' := by
  cases e with
  | inr s =>
    simp only [decodeSiteEntry] at h
    cases h
    rfl
  | inl j =>
    cases j with
    | obj kvs =>
      simp only [decodeSiteEntry] at h
      cases hd : decodeSite kvs with
      | error m => rw [hd] at h; exact absurd h (by simp)
      | ok s => rw [hd] at h; cases h; rfl
    | null => simp only [decodeSiteEntry] at h; cases h; rfl
    | bool b => simp only [decodeSiteEntry] at h; cases h; rfl
    | num q => simp only [decodeSiteEntry] at h; cases h; rfl
    | str s => simp only [decodeSiteEntry] at h; cases h; rfl
    | arr l => simp only [decodeSiteEntry] at h; cases h; rfl

/-- C8: decoding of the site list is idempotent: when the entry loop of the
post-init method of SiteList succeeds on a list of entries, running the same
loop on its own output succeeds and returns that output unchanged, the
isinstance guard leaving every already-constructed Site untouched. -/
theorem site_list_decode_idempotent (entries out : List SiteEntry)
    (h : decodeSiteEntries entries = .ok out) :
    decodeSiteEntries out = .ok out := by
  induction entries generalizing out with
  | nil =>
    simp only [decodeSiteEntries] at h
    cases h
    rfl
  | cons e rest ih =>
    simp only [decodeSiteEntries] at h
    cases he : decodeSiteEntry e with
    | error m => rw [he] at h; exact absurd h (by simp)
    | ok e' =>
      rw [he] at h
      cases hr : decodeSiteEntries rest with
      | error m => rw [hr] at h; exact absurd h (by simp)
      | ok rest' =>
        rw [hr] at h
        cases h
        simp only [decodeSiteEntries, decodeSiteEntry_fixed e e' he, ih rest' hr]

/-- Concrete Site object with all fields valid. -/
def c8SiteKvs : List (String × Json) :=
  [("id", Json.num 1), ("name", Json.str "home"), ("accountId", Json.num 2),
   ("status", Json.str "Active"), ("peakPower", Json.num 5),
   ("lastUpdateTime", Json.str "2024-05-01 10:00:00"), ("currency", Json.str "EUR"),
   ("installationDate", Json.str "2022-03-04 00:00:00"), ("ptoDate", Json.null),
   ("notes", Json.str "n"), ("type", Json.str "Optimizers"),
   ("location", Json.obj [("country", Json.str "UK"), ("city", Json.str "London"),
     ("address", Json.str "a"), ("address2", Json.str "b"), ("zip", Json.str "z"),
     ("timeZone", Json.str "Europe/London"), ("countryCode", Json.str "GB")]),
   ("primaryModule", Json.obj [("manufacturerName", Json.str "m"),
     ("modelName", Json.str "mm"), ("maximumPower", Json.num 400),
     ("temperatureCoef", Json.num 0)]),
   ("uris", Json.obj [("SITE_IMAGE", Json.str "u1"), ("DATA_PERIOD", Json.str "u2"),
     ("DETAILS", Json.str "u3"), ("OVERVIEW", Json.str "u4")]),
   ("publicSettings", Json.obj [("isPublic", Json.bool false)])]

/-- Typed Site record decoded from the valid concrete Site object. -/
def c8SiteT : SiteT :=
  { id := Json.num 1, name := Json.str "home", accountId := Json.num 2,
    status := Json.str "Active", peakPower := Json.num 5,
    lastUpdateTime := ⟨2024, 5, 1, 10, 0, 0⟩, currency := Json.str "EUR",
    installationDate := ⟨2022, 3, 4, 0, 0, 0⟩, ptoDate := Json.null,
    notes := Json.str "n", type := Json.str "Optimizers",
    location := ⟨Json.str "UK", Json.str "London", Json.str "a", Json.str "b",
      Json.str "z", Json.str "Europe/London", Json.str "GB"⟩,
    primaryModule := ⟨Json.str "m", Json.str "mm", Json.num 400, Json.num 0⟩,
    uris := ⟨Json.str "u1", Json.str "u2", Json.str "u3", Json.str "u4"⟩,
    publicSettings := ⟨Json.bool false, Json.null⟩,
    alertQuantity := Json.num 0, alertSeverity := Json.null }

theorem site_list_decode_idempotent_witness :
    decodeSiteEntries [Sum.inl (Json.obj c8SiteKvs)] = Except.ok [Sum.inr c8SiteT] ∧
    decodeSiteEntries [Sum.inr c8SiteT] = Except.ok [Sum.inr c8SiteT] :=
  ⟨rfl, site_list_decode_idempotent [Sum.inl (Json.obj c8SiteKvs)] [Sum.inr c8SiteT] rfl⟩

/-- Blank location used by concrete test sites. -/
def blankLoc : LocationT :=
  ⟨Json.null, Json.null, Json.null, Json.null, Json.null, Json.null, Json.null⟩

/-- Blank primary module used by concrete test sites. -/
def blankPM : PrimaryModuleT := ⟨Json.null, Json.null, Json.null, Json.null⟩

/-- Blank uris record used by concrete test sites. -/
def blankUris : UrisT := ⟨Json.null, Json.null, Json.null, Json.null⟩

/-- Fixed timestamp used by concrete test sites. -/
def epochDT : DateTime := ⟨2024, 1, 1, 0, 0, 0⟩

/-- Concrete Site record with a given id and blank remaining fields. -/
def mkSiteT (id : Json) : SiteT :=
  { id := id, name := Json.null, accountId := Json.null, status := Json.null,
    peakPower := Json.null, lastUpdateTime := epochDT, currency := Json.null,
    installationDate := epochDT, ptoDate := Json.null, notes := Json.null,
    type := Json.null, location := blankLoc, primaryModule := blankPM,
    uris := blankUris, publicSettings := ⟨Json.null, Json.null⟩,
    alertQuantity := Json.num 0, alertSeverity := Json.null }

/-- Concrete Inverter record with a given serial number. -/
def mkInverterT (sn : String) : InverterT :=
  ⟨Json.str sn, Json.null, Json.null, Json.null, Json.null, Json.null, Json.null⟩

/-- Concrete InventoryData record holding only inverters. -/
def mkInvDataT (invs : List InverterT) : InventoryDataT := ⟨[], [], [], [], invs, none⟩

/-- Transport-and-decode oracle of the two-site discovery scenario: site one
owns inverter A and site two owns inverter B. -/
def c6Oracle : Json → InventoryDataT :=
  fun j =>
    match j with
    | Json.num q => if q = 1 then mkInvDataT [mkInverterT "A"] else mkInvDataT [mkInverterT "B"]
    | _ => mkInvDataT []

/-- C6 counterexample: after discovering two sites with ids one and two, each
owning one inverter, the stored defaults are the id of site two and the serial
of inverter B — the last discovered values, not the first ones. -/
theorem init_defaults_not_first_counterexample :
    (initArguments ⟨none, none⟩ [mkSiteT (Json.num 1), mkSiteT (Json.num 2)]
      c6Oracle).1.siteid = some (Json.num 2) ∧
    (initArguments ⟨none, none⟩ [mkSiteT (Json.num 1), mkSiteT (Json.num 2)]
      c6Oracle).1.serialnumber = some (Json.str "B") ∧
    Json.num 2 ≠ Json.num 1 ∧ Json.str "B" ≠ Json.str "A" :=
  ⟨rfl, rfl,
   fun h => by injection h with h2; exact absurd h2 (by norm_num),
   fun h => by injection h with h2; exact absurd h2 (by decide)⟩

theorem lastId_cons_some (s : SiteT) (l : List SiteT) :
    ∃ v, lastId (s :: l) = some v := by
  induction l generalizing s with
  | nil => exact ⟨s.id, rfl⟩
  | cons y t ih => exact ih y

theorem lastSN_cons_some (i : InverterT) (l : List InverterT) :
    ∃ v, lastSN (i :: l) = some v := by
  induction l generalizing i with
  | nil => exact ⟨i.SN, rfl⟩
  | cons y t ih => exact ih y

theorem foldl_initStep_siteid (f : Json → InventoryDataT) (sites : List SiteT) :
    ∀ st : ArgsV × List InventoryDataT,
    ((sites.foldl (initStep f) st).1).siteid =
      (match lastId sites with
       | none => st.1.siteid
       | some v => some v) := by
  induction sites with
  | nil => intro st; rfl
  | cons s rest ih =>
    intro st
    rw [List.foldl_cons, ih (initStep f st s)]
    cases rest with
    | nil => rfl
    | cons y t =>
      obtain ⟨v, hv⟩ := lastId_cons_some y t
      have hv2 : lastId (s :: y :: t) = some v := hv
      rw [hv, hv2]

theorem foldl_initStep_serial (f : Json → InventoryDataT) (sites : List SiteT) :
    ∀ st : ArgsV × List InventoryDataT,
    ((sites.foldl (initStep f) st).1).serialnumber = st.1.serialnumber := by
  induction sites with
  | nil => intro st; rfl
  | cons s rest ih =>
    intro st
    rw [List.foldl_cons, ih (initStep f st s)]
    rfl

theorem foldl_initStep_invs (f : Json → InventoryDataT) (sites : List SiteT) :
    ∀ st : ArgsV × List InventoryDataT,
    (sites.foldl (initStep f) st).2 =
      st.2 ++ sites.map (fun s => { f s.id with site := some s.id }) := by
  induction sites with
  | nil => intro st; simp
  | cons s rest ih =>
    intro st
    rw [List.foldl_cons, ih (initStep f st s)]
    simp [initStep, getSiteInventory]

theorem foldl_assign_lastSN (l : List InverterT) :
    ∀ b : Option Json,
    l.foldl (fun _ i => some i.SN) b =
      (match lastSN l with | none => b | some v => some v) := by
  induction l with
  | nil => intro b; rfl
  | cons i rest ih =>
    intro b
    rw [List.foldl_cons, ih]
    cases rest with
    | nil => rfl
    | cons y t =>
      obtain ⟨v, hv⟩ := lastSN_cons_some y t
      have hv2 : lastSN (i :: y :: t) = some v := hv
      rw [hv, hv2]

theorem lastSN_append (a c : List InverterT) :
    lastSN (a ++ c) =
      (match lastSN c with | none => lastSN a | some v => some v) := by
  induction a with
  | nil =>
    rw [List.nil_append]
    cases h : lastSN c <;> rfl
  | cons x a' ih =>
    cases a' with
    | nil =>
      cases c with
      | nil => rfl
      | cons y t =>
        obtain ⟨v, hv⟩ := lastSN_cons_some y t
        have hv2 : lastSN ([x] ++ y :: t) = some v := hv
        rw [hv, hv2]
    | cons y t => exact ih

theorem serial_foldl_flatten (L : List InventoryDataT) :
    ∀ b : Option Json,
    L.foldl (fun ser inv => inv.inverters.foldl (fun _ i => some i.SN) ser) b =
      (match lastSN ((L.map (fun inv => inv.inverters)).flatten) with
       | none => b | some v => some v) := by
  induction L with
  | nil => intro b; rfl
  | cons inv L' ih =>
    intro b
    rw [List.foldl_cons, ih, List.map_cons, List.flatten_cons, lastSN_append,
      foldl_assign_lastSN]
    cases h1 : lastSN ((L'.map (fun inv => inv.inverters)).flatten) with
    | none => cases h2 : lastSN inv.inverters <;> rfl
    | some v => rfl

/-- C6 (amended): after the discovery loops of client construction, the stored
default site id is the last discovered site id and the stored default serial
number is the last discovered inverter serial number, each falling back to its
previous stored value when nothing was discovered. -/
theorem init_defaults_are_last_discovered (args0 : ArgsV) (sites : List SiteT)
    (f : Json → InventoryDataT) :
    (initArguments args0 sites f).1.siteid =
      (match lastId sites with | none => args0.siteid | some v => some v) ∧
    (initArguments args0 sites f).1.serialnumber =
      (match lastSN (allInverters sites f) with
       | none => args0.serialnumber | some v => some v) := by
  constructor
  · exact foldl_initStep_siteid f sites (args0, [])
  · show (sites.foldl (initStep f) (args0, [])).2.foldl _ _ = _
    rw [foldl_initStep_invs f sites (args0, []), List.nil_append,
      foldl_initStep_serial f sites (args0, []), serial_foldl_flatten,
      List.map_map]
    rfl

/-- C9: get_inverter_telemetry invoked with no serial argument while the store
holds no inverter serial returns an absent result, leaves the store unchanged
and issues no network request and no error; and whenever the store holds a
serial the accessor issues the telemetry request. -/
theorem telemetry_without_serial_returns_none (sid : Option Json) (sn : Json)
    (pstore : String → Option String) :
    getInverterTelemetry ⟨sid, none⟩ pstore none = (⟨sid, none⟩, none) ∧
    (getInverterTelemetry ⟨sid, some sn⟩ pstore none).2 =
      some (callApi ⟨sid, some sn⟩ pstore InverterDataD) :=
  ⟨rfl, rfl⟩

/-- C10: get_site_inventory writes the requested site id into the site field
of the returned inventory record, and get_site_components writes the current
site id into the site field of every returned component entry. -/
theorem site_field_stamped_on_results (args : ArgsV) (id : Json)
    (resp : InventoryDataT) (site : Option String) (resp2 : List ComponentEntryT)
    (e : ComponentEntryT) (he : e ∈ (getSiteComponents args site resp2).2) :
    (getSiteInventory args id resp).2.site = some id ∧
    e.site = (getSiteComponents args site resp2).1.siteid := by
  refine ⟨rfl, ?_⟩
  have h2 : e ∈ resp2.map
      (fun x => { x with site := (getSiteComponents args site resp2).1.siteid }) := he
  obtain ⟨a, _, rfl⟩ := List.mem_map.mp h2
  rfl

/-- Argument store of the concrete site-stamping scenario. -/
def w10Args : ArgsV := ⟨some (Json.num 5), none⟩

/-- Concrete component entry of the site-stamping scenario. -/
def w10Comp : ComponentEntryT :=
  ⟨Json.str "inv1", Json.null, Json.null, Json.str "S1", Json.null, none⟩

theorem site_field_stamped_on_results_witness :
    ({ w10Comp with site := some (Json.num 5) } ∈
      (getSiteComponents w10Args none [w10Comp]).2) ∧
    ((getSiteInventory w10Args (Json.num 7) (mkInvDataT [])).2.site = some (Json.num 7) ∧
     ({ w10Comp with site := some (Json.num 5) } : ComponentEntryT).site =
       (getSiteComponents w10Args none [w10Comp]).1.siteid) :=
  ⟨List.Mem.head _,
   site_field_stamped_on_results w10Args (Json.num 7) (mkInvDataT []) none [w10Comp]
     { w10Comp with site := some (Json.num 5) } (List.Mem.head _)⟩

end SolaredgeSpec
